/-
Verification development for the SDLC Studio frontend.

The repository is a React application in which projects move through SDLC
stages; an API service object talks to a backend over JSON/HTTP.  The
definitions below are a shallow embedding of the pure decision logic of the
relevant JavaScript functions: React state updates become explicit state
passing, `fetch` responses become an `HttpResponse` record, a thrown
`Error` becomes `Except.error` carrying the error message, and JavaScript
string truthiness (`""` is falsy) is modelled explicitly.
-/
import Mathlib

/-! ## Stage constants

From `src/utils/constants` (the `STAGES` object and `STAGE_ORDER` array),
from the `stages` array of `src/components/stages/StageIndicator.jsx`, and
from the stage list repeated inside `WorkspaceView.jsx`
(`updateStageData`, `getProjectFiles`, `isStageAccessible`,
`getPreviousStageArtifacts` all use the same literal). -/

/-- The `STAGES` constant object: stage id strings keyed by name. -/
structure StagesConst where
  DISCOVER : String
  DEFINE : String
  DESIGN : String
  DEVELOP : String
  TEST : String
  DEPLOY : String
  MAINTAIN : String

/-- `STAGES` from the constants module. -/
def STAGES : StagesConst :=
  { DISCOVER := "discover", DEFINE := "define", DESIGN := "design",
    DEVELOP := "develop", TEST := "test", DEPLOY := "deploy",
    MAINTAIN := "maintain" }

/-- `STAGE_ORDER` from the constants module. -/
def STAGE_ORDER : List String :=
  [STAGES.DISCOVER, STAGES.DEFINE, STAGES.DESIGN, STAGES.DEVELOP,
   STAGES.TEST, STAGES.DEPLOY, STAGES.MAINTAIN]

/-- An entry of the `stages` array of `StageIndicator.jsx`: `{ id, name }`. -/
structure StageEntry where
  id : String
  name : String

/-- The exported `stages` array of `StageIndicator.jsx`. -/
def StageIndicator.stages : List StageEntry :=
  [⟨"discover", "Discover"⟩, ⟨"define", "Define"⟩, ⟨"design", "Design"⟩,
   ⟨"develop", "Develop"⟩, ⟨"test", "Test"⟩, ⟨"build", "Build"⟩,
   ⟨"deploy", "deploy"⟩]

/-- The stage list literal used throughout `WorkspaceView.jsx`
(`updateStageData`, `getProjectFiles`, `isStageAccessible`,
`getPreviousStageArtifacts`). -/
def WorkspaceView.stages : List String :=
  ["discover", "define", "design", "develop", "test", "build", "deploy"]

/-! ## ApiService.request

From `src/services/api.js`.  The method reads the response; when the
`content-type` header contains `application/json` it parses the body and,
on a non-OK status, throws `new Error(data.detail || data.message ||
`HTTP error! status: ...`)`; otherwise (non-JSON content type) it returns
`{ message: text, status: response.status }` without consulting
`response.ok`.  The surrounding `catch` re-throws any `Error` raised here
unchanged (the special case only rewrites a `TypeError` from a failed
`fetch`, which is outside this model). -/

/-- JavaScript `a || b` on a possibly-absent string field: an absent field
and the empty string are falsy. -/
def jsStrOr (a : Option String) (b : String) : String :=
  match a with
  | some s => if s = "" then b else s
  | none => b

/-- Whether `needle` occurs as a contiguous run inside `hay`
(helper for JavaScript `String.prototype.includes`). -/
def listContainsSub : List Char → List Char → Bool
  | _, [] => true
  | [], _ :: _ => false
  | h :: t, n => List.isPrefixOf n (h :: t) || listContainsSub t n

/-- JavaScript `s.includes(sub)`. -/
def jsIncludes (s sub : String) : Bool :=
  listContainsSub s.toList sub.toList

/-- JavaScript `s.trim()`: strips leading and trailing whitespace. -/
def jsTrim (s : String) : String :=
  String.mk (((s.toList.dropWhile Char.isWhitespace).reverse.dropWhile
    Char.isWhitespace).reverse)

/-- JavaScript `s.split(sep)` for a single-character separator. -/
def jsSplit (s : String) (sep : Char) : List String :=
  (s.toList.splitOn sep).map String.mk

/-- The JSON body of a response, restricted to the two fields
`ApiService.request` reads from it. -/
structure JsonBody where
  detail : Option String
  message : Option String
deriving DecidableEq

/-- A `fetch` response as `ApiService.request` observes it. -/
structure HttpResponse where
  ok : Bool
  status : Nat
  contentType : Option String
  jsonBody : JsonBody
  textBody : String

/-- `contentType && contentType.includes('application/json')`:
the header is present and contains the substring `application/json`. -/
def isJsonContentType : Option String → Bool
  | none => false
  | some ct => jsIncludes ct "application/json"

/-- A value `ApiService.request` can resolve with: the parsed JSON body, or
the `{ message, status }` record built for non-JSON responses. -/
inductive ApiValue where
  | json (body : JsonBody)
  | textResult (message : String) (status : Nat)
deriving DecidableEq

/-- The error message thrown for a non-OK JSON response:
`data.detail || data.message || `HTTP error! status: ${status}``. -/
def requestErrorMessage (body : JsonBody) (status : Nat) : String :=
  jsStrOr body.detail (jsStrOr body.message ("HTTP error! status: " ++ toString status))

/-- `ApiService.request`, as a function of the observed response.
`Except.error msg` models `throw new Error(msg)`. -/
def ApiService.request (r : HttpResponse) : Except String ApiValue :=
  if isJsonContentType r.contentType then
    if r.ok then .ok (.json r.jsonBody)
    else .error (requestErrorMessage r.jsonBody r.status)
  else .ok (.textResult r.textBody r.status)

/-! ## ApiService chat methods

From `src/services/api.js`.  Each method calls `this.request(endpoint,
options)`; `fetch` defaults to the GET method when `options` carries no
`method` field.  A request is modelled by the method, the endpoint path and
the key/value pairs serialised into the JSON body. -/

/-- An HTTP request as issued by an `ApiService` method. -/
structure HttpRequest where
  method : String
  path : String
  body : Option (List (String × String))
deriving DecidableEq

/-- `ApiService.sendChatMessage(projectId, stage, message, userId)`. -/
def ApiService.sendChatMessage (projectId stage message userId : String) : HttpRequest :=
  { method := "POST", path := "/api/chat/send",
    body := some [("project_id", projectId), ("stage", stage),
                  ("message", message), ("user_id", userId)] }

/-- `ApiService.getChatHistory(projectId, stage, limit)`. -/
def ApiService.getChatHistory (projectId stage : String) (limit : Nat) : HttpRequest :=
  { method := "GET",
    path := "/api/chat/" ++ projectId ++ "/" ++ stage ++ "/history?limit=" ++ toString limit,
    body := none }

/-- The default value of `getChatHistory`'s `limit` parameter in the source. -/
def ApiService.getChatHistoryDefaultLimit : Nat := 50

/-- `ApiService.clearChatHistory(projectId, stage)`. -/
def ApiService.clearChatHistory (projectId stage : String) : HttpRequest :=
  { method := "DELETE",
    path := "/api/chat/" ++ projectId ++ "/" ++ stage ++ "/history",
    body := none }

/-! ## GitHub configuration

From `src/components/project/GitHubConfigModal.jsx` and the GitHub state
handling in `WorkspaceView.jsx`. -/

/-- The GitHub configuration record returned by `api.getGitHubConfig`. -/
structure GitHubConfig where
  is_configured : Bool
  github_repo : Option String
deriving DecidableEq

/-- `WorkspaceView.checkGitHubConfig`: returns the configuration fetched by
`api.getGitHubConfig`, and `{ is_configured: false }` when that call
rejects.  The argument is the outcome of the API call. -/
def WorkspaceView.checkGitHubConfig
    (apiResult : Except String GitHubConfig) : GitHubConfig :=
  match apiResult with
  | .ok config => config
  | .error _ => { is_configured := false, github_repo := none }

/-- The `useEffect` in `WorkspaceView.jsx` that runs when `viewingStage`
changes: when the viewed stage is `develop` it checks the GitHub
configuration and opens the modal (`setShowGitHubModal(true)`) when
`config?.is_configured` is falsy; otherwise the modal flag is unchanged.
Returns the resulting `showGitHubModal` flag. -/
def WorkspaceView.developViewEffect (viewingStage : String)
    (apiResult : Except String GitHubConfig) (showGitHubModal : Bool) : Bool :=
  if viewingStage = "develop" then
    if (WorkspaceView.checkGitHubConfig apiResult).is_configured = false then true
    else showGitHubModal
  else showGitHubModal

/-- A development ticket, restricted to the fields the modelled functions
inspect. -/
structure Ticket where
  key : String
  summary : String
deriving DecidableEq

/-- The three mutually exclusive bodies `DevelopStagePanel` can render below
its header: the "Connect GitHub to Continue" prompt, the "No Tickets Yet"
prompt, or the `TicketList` (the only branch that wires up
`handleImplementTicket` and hence `api.implementTicket`). -/
inductive DevelopPanelView where
  | connectPrompt
  | noTicketsPrompt
  | ticketList (tickets : List Ticket)
deriving DecidableEq

/-- `githubConfig?.is_configured || false`: the optional-chaining access
used by `DevelopStagePanel`. -/
def githubIsConfigured : Option GitHubConfig → Bool
  | some c => c.is_configured
  | none => false

/-- The render dispatch of
`src/components/stages/DevelopStagePanel.jsx`:
`isConfigured = githubConfig?.is_configured || false`; when not configured
the connect prompt is shown, else the empty-state prompt when there are no
tickets, else the ticket list. -/
def DevelopStagePanel.render (githubConfig : Option GitHubConfig)
    (tickets : List Ticket) : DevelopPanelView :=
  if githubIsConfigured githubConfig = false then .connectPrompt
  else if tickets.length = 0 then .noTicketsPrompt
  else .ticketList tickets

/-- What `GitHubConfigModal.handleSubmit` does before any response arrives:
either it reaches `api.saveGitHubConfig(projectId, { github_token,
github_repo })`, or a validation `Error` is thrown and caught, setting the
inline error message without any API request. -/
inductive SubmitAction where
  | apiCall (github_token github_repo : String)
  | inlineError (msg : String)
deriving DecidableEq

/-- The validation logic of `GitHubConfigModal.handleSubmit`
(`src/components/project/GitHubConfigModal.jsx`): empty trimmed token,
empty trimmed repo, and `!repo.includes('/') ||
repo.split('/').length !== 2` each throw; otherwise the API is called with
the trimmed token and repo. -/
def GitHubConfigModal.handleSubmit (token repo : String) : SubmitAction :=
  if jsTrim token = "" then .inlineError "GitHub token is required"
  else if jsTrim repo = "" then .inlineError "Repository is required"
  else if jsIncludes repo "/" = false ∨ (jsSplit repo '/').length ≠ 2 then
    .inlineError "Repository must be in format \"owner/repo\""
  else .apiCall (jsTrim token) (jsTrim repo)

/-! ## TestStagePanel.toggleSuite

From `src/components/stages/TestStagePanel.jsx`: `expandedSuites` is a
JavaScript `Set`; `toggleSuite` copies it, deletes the id when present and
adds it otherwise.  A `Set` of strings is modelled as a `Finset String`. -/

/-- `toggleSuite` applied to the previous `expandedSuites` set. -/
def TestStagePanel.toggleSuite (suiteId : String) (prev : Finset String) : Finset String :=
  if suiteId ∈ prev then prev.erase suiteId else insert suiteId prev

/-! ## WorkspaceView state and handlers

From `src/pages/WorkspaceView.jsx`.  The pieces of React state the modelled
handlers read or write are collected in `WorkspaceState`; per-stage maps
(`artifacts`, `stageData`) become functions from the stage id string.
`Date.now()` and `new Date().toLocaleString()` are environment inputs and
are passed as parameters. -/

/-- One generated artifact as returned inside a generation result
(`result.problem_statement`, `result.brd`, `result.architecture`, ...). -/
structure ArtifactInfo where
  artifact_id : String
  name : Option String
  content : String
  created_at : String
deriving DecidableEq

/-- An artifact record as stored in the `artifacts` state of
`WorkspaceView`. -/
structure Artifact where
  artifact_id : String
  name : String
  content : String
  created_at : String
  created_by : String
  stage : String
deriving DecidableEq

/-- The file selected in the editor panel. -/
structure SelectedFile where
  id : String
  name : String
  content : String
  lastEditedBy : String
  lastEditedTime : String
deriving DecidableEq

/-- A team-chat message. -/
structure ChatMessage where
  id : Nat
  author : String
  content : String
  time : String
  isAI : Bool
deriving DecidableEq

/-- The `developTickets` state record set from a ticket generation
result. -/
structure TicketsData where
  tickets : Option (List Ticket)
  summary : Option String
  artifact_id : Option String
deriving DecidableEq

/-- An entry of the `stageData` state: `{ status, itemCount }`. -/
structure StageInfo where
  status : String
  itemCount : Nat
deriving DecidableEq

/-- A generation result delivered to `handleGenerationComplete`, with the
fields the handler inspects; absent JSON fields are `none`. -/
structure GenResult where
  stage : Option String
  tickets : Option (List Ticket)
  summary : Option String
  artifact_id : Option String
  problem_statement : Option ArtifactInfo
  stakeholder_analysis : Option ArtifactInfo
  brd : Option ArtifactInfo
  user_stories : Option ArtifactInfo
  architecture : Option ArtifactInfo
deriving DecidableEq

/-- The React state of `WorkspaceView` touched by the modelled handlers. -/
structure WorkspaceState where
  currentStage : String
  viewingStage : String
  activeTab : String
  artifacts : String → List Artifact
  stageData : String → StageInfo
  selectedFile : Option SelectedFile
  fileContent : String
  developTickets : Option TicketsData
  chatMessages : List ChatMessage

/-- `WorkspaceView.handleGenerationComplete(result)`.  `nowId` stands for
`Date.now()` and `nowStr` for `new Date().toLocaleString()`.  The branches
mirror the source: the develop branch fires when `result.stage ===
'develop'` or `result.tickets` is present (a JavaScript array, even empty,
is truthy); then the discover, define and design branches in order; a
result matching none of them leaves the state unchanged. -/
def WorkspaceView.handleGenerationComplete (nowId : Nat) (nowStr : String)
    (result : GenResult) (s : WorkspaceState) : WorkspaceState :=
  if result.stage = some "develop" ∨ result.tickets.isSome then
    { s with
      developTickets := some { tickets := result.tickets, summary := result.summary,
                               artifact_id := result.artifact_id },
      chatMessages := s.chatMessages ++
        [{ id := nowId, author := "AI",
           content := "✅ Generated " ++
             toString (match result.tickets with | some ts => ts.length | none => 0) ++
             " development tickets!",
           time := "Just now", isAI := true }] }
  else
    match result.problem_statement, result.stakeholder_analysis with
    | some ps, some sa =>
      let newArtifacts : List Artifact :=
        [{ artifact_id := ps.artifact_id, name := "Problem Statement",
           content := ps.content, created_at := ps.created_at,
           created_by := "AI Business Analyst", stage := "discover" },
         { artifact_id := sa.artifact_id, name := "Stakeholder Analysis",
           content := sa.content, created_at := sa.created_at,
           created_by := "AI Business Analyst", stage := "discover" }]
      { s with
        artifacts := fun st => if st = "discover" then newArtifacts else s.artifacts st,
        stageData := fun st =>
          if st = "discover" then { status := "passed", itemCount := 2 }
          else if st = "define" then { status := "active", itemCount := 0 }
          else s.stageData st,
        currentStage := "define",
        selectedFile := some { id := ps.artifact_id, name := "Problem Statement",
                               content := ps.content, lastEditedBy := "AI Business Analyst",
                               lastEditedTime := nowStr },
        fileContent := ps.content }
    | _, _ =>
      match result.brd, result.user_stories with
      | some brd, some us =>
        let newArtifacts : List Artifact :=
          [{ artifact_id := brd.artifact_id, name := "Business Requirements Document",
             content := brd.content, created_at := brd.created_at,
             created_by := "AI Technical Writer", stage := "define" },
           { artifact_id := us.artifact_id, name := "User Stories",
             content := us.content, created_at := us.created_at,
             created_by := "AI Technical Writer", stage := "define" }]
        { s with
          artifacts := fun st => if st = "define" then newArtifacts else s.artifacts st,
          stageData := fun st =>
            if st = "define" then { status := "passed", itemCount := 2 }
            else if st = "design" then { status := "active", itemCount := 0 }
            else s.stageData st,
          currentStage := "design",
          selectedFile := some { id := brd.artifact_id,
                                 name := "Business Requirements Document",
                                 content := brd.content,
                                 lastEditedBy := "AI Technical Writer",
                                 lastEditedTime := nowStr },
          fileContent := brd.content }
      | _, _ =>
        match result.architecture with
        | some arch =>
          let archName := jsStrOr arch.name "Solution Architecture Document"
          let newArtifacts : List Artifact :=
            [{ artifact_id := arch.artifact_id, name := archName,
               content := arch.content, created_at := arch.created_at,
               created_by := "AI Solution Architect", stage := "design" }]
          { s with
            artifacts := fun st => if st = "design" then newArtifacts else s.artifacts st,
            stageData := fun st =>
              if st = "design" then { status := "passed", itemCount := 1 }
              else if st = "develop" then { status := "active", itemCount := 0 }
              else s.stageData st,
            currentStage := "develop",
            selectedFile := some { id := arch.artifact_id, name := archName,
                                   content := arch.content,
                                   lastEditedBy := "AI Solution Architect",
                                   lastEditedTime := nowStr },
            fileContent := arch.content }
        | none => s

/-- `WorkspaceView.handleMoveToNextStage(nextStage)`: sets the current and
viewed stage to `nextStage`, returns to the workspace tab, and updates
`stageData` by marking the **old** current stage `passed` and `nextStage`
`active` (the spreads keep every other field, in particular `itemCount`);
when both keys coincide the later `nextStage` write wins. -/
def WorkspaceView.handleMoveToNextStage (nextStage : String)
    (s : WorkspaceState) : WorkspaceState :=
  { s with
    currentStage := nextStage,
    viewingStage := nextStage,
    activeTab := "workspace",
    stageData := fun st =>
      if st = nextStage then { s.stageData st with status := "active" }
      else if st = s.currentStage then { s.stageData st with status := "passed" }
      else s.stageData st }

/-! ## DiscoverInputPanel.handleGenerate

From `src/components/workspace/DiscoverInputPanel.jsx`.  The handler
returns early when the trimmed idea is empty or a generation is already
running; otherwise it runs the generation, and on rejection sets the error
state to `err.message || 'Generation failed. Please try again.'` without
calling `onGenerationComplete`; `finally` always clears `isGenerating`. -/

/-- The panel state `handleGenerate` reads and writes. -/
structure DiscoverPanelState where
  userIdea : String
  isGenerating : Bool
  generationStep : Nat
  error : Option String
deriving DecidableEq

/-- `DiscoverInputPanel.handleGenerate`, as a function of the outcome of
`api.generateDiscover`.  The second component of the pair is the argument
passed to `onGenerationComplete`, or `none` when that callback is not
invoked. -/
def DiscoverInputPanel.handleGenerate (s : DiscoverPanelState)
    (apiResult : Except String GenResult) : DiscoverPanelState × Option GenResult :=
  if jsTrim s.userIdea = "" ∨ s.isGenerating = true then (s, none)
  else
    match apiResult with
    | .ok r =>
      ({ s with isGenerating := false, error := none, generationStep := 3 }, some r)
    | .error msg =>
      ({ s with isGenerating := false, generationStep := 1,
                error := some (if msg = "" then "Generation failed. Please try again." else msg) },
       none)

/-! ## Example inputs used by the witnesses -/

/-- A concrete discover generation result: both discover artifacts present,
no ticket fields. -/
def exampleDiscoverResult : GenResult :=
  { stage := none, tickets := none, summary := none, artifact_id := none,
    problem_statement := some ⟨"a1", none, "PS content", "2025-01-01"⟩,
    stakeholder_analysis := some ⟨"a2", none, "SA content", "2025-01-01"⟩,
    brd := none, user_stories := none, architecture := none }

/-- A concrete workspace state: fresh project on the discover stage. -/
def exampleWorkspaceState : WorkspaceState :=
  { currentStage := "discover", viewingStage := "discover", activeTab := "workspace",
    artifacts := fun _ => [],
    stageData := fun _ => { status := "pending", itemCount := 0 },
    selectedFile := none, fileContent := "", developTickets := none,
    chatMessages := [] }

/-! ## Claims -/

/-- Claim C1, counterexample: not every stage-order list in the code equals
`['discover','define','design','develop','test','build','deploy']` — the
`STAGE_ORDER` constant differs (it ends `'deploy','maintain'` and has no
`'build'`). -/
theorem stage_order_claim_cex :
    ¬(STAGE_ORDER = ["discover", "define", "design", "develop", "test", "build", "deploy"] ∧
      StageIndicator.stages.map StageEntry.id
        = ["discover", "define", "design", "develop", "test", "build", "deploy"] ∧
      WorkspaceView.stages
        = ["discover", "define", "design", "develop", "test", "build", "deploy"]) := by
  intro h
  exact absurd h.1 (by decide)

/-- Claim C1, amended: the `StageIndicator` stages array and the stage
lists inside `WorkspaceView` equal
`['discover','define','design','develop','test','build','deploy']`, but the
`STAGE_ORDER` constant equals
`['discover','define','design','develop','test','deploy','maintain']`. -/
theorem stage_order_amended :
    StageIndicator.stages.map StageEntry.id
      = ["discover", "define", "design", "develop", "test", "build", "deploy"] ∧
    WorkspaceView.stages
      = ["discover", "define", "design", "develop", "test", "build", "deploy"] ∧
    STAGE_ORDER = ["discover", "define", "design", "develop", "test", "deploy", "maintain"] :=
  ⟨rfl, rfl, rfl⟩

/-- Claim C2, counterexample: for a non-OK JSON response whose body has a
`detail` field that is present but empty and a `message` field `"m"`,
`ApiService.request` throws `"m"`, not the present `detail` value `""`:
`||` falls through empty strings. -/
theorem apiRequest_error_detail_cex :
    (HttpResponse.mk false 500 (some "application/json") ⟨some "", some "m"⟩ "").jsonBody.detail
      = some "" ∧
    ApiService.request (HttpResponse.mk false 500 (some "application/json") ⟨some "", some "m"⟩ "")
      = .error "m" ∧
    ("m" : String) ≠ "" := by
  refine ⟨rfl, rfl, by decide⟩

/-- Claim C2, amended: for every non-OK response with a JSON content type,
`ApiService.request` never resolves, and the thrown message is the `detail`
field when it is present and non-empty, otherwise the `message` field when
that is present and non-empty, otherwise `'HTTP error! status: <status>'`. -/
theorem apiRequest_error_message (r : HttpResponse)
    (hct : isJsonContentType r.contentType = true) (hok : r.ok = false) :
    (∀ v, ApiService.request r ≠ .ok v) ∧
    (∀ d, r.jsonBody.detail = some d → d ≠ "" → ApiService.request r = .error d) ∧
    (∀ m, (r.jsonBody.detail = none ∨ r.jsonBody.detail = some "") →
        r.jsonBody.message = some m → m ≠ "" → ApiService.request r = .error m) ∧
    ((r.jsonBody.detail = none ∨ r.jsonBody.detail = some "") →
     (r.jsonBody.message = none ∨ r.jsonBody.message = some "") →
        ApiService.request r = .error ("HTTP error! status: " ++ toString r.status)) := by
  have hreq : ApiService.request r = .error (requestErrorMessage r.jsonBody r.status) := by
    simp [ApiService.request, hct, hok]
  refine ⟨?_, ?_, ?_, ?_⟩
  · intro v hv
    rw [hreq] at hv
    exact Except.noConfusion hv
  · intro d hd hne
    rw [hreq]
    simp [requestErrorMessage, jsStrOr, hd, hne]
  · intro m hd hm hne
    rw [hreq]
    rcases hd with hd | hd <;> simp [requestErrorMessage, jsStrOr, hd, hm, hne]
  · intro hd hm
    rw [hreq]
    rcases hd with hd | hd <;> rcases hm with hm | hm <;>
      simp [requestErrorMessage, jsStrOr, hd, hm]

/-- Witness for `apiRequest_error_message` at a concrete 404 response. -/
theorem apiRequest_error_message_witness :
    ApiService.request
        (HttpResponse.mk false 404 (some "application/json") ⟨some "Not found", none⟩ "")
      = .error "Not found" :=
  (apiRequest_error_message
    (HttpResponse.mk false 404 (some "application/json") ⟨some "Not found", none⟩ "")
    rfl rfl).2.1 "Not found" rfl (by decide)

/-- Claim C3: when `handleGenerationComplete` receives a discover result
(both `problem_statement` and `stakeholder_analysis` present, and no ticket
fields routing it to the develop branch), the discover stage becomes
`passed` with `itemCount` 2, the define stage becomes `active`, the current
stage becomes `define`, and the two returned artifacts become the discover
stage's artifact list. -/
theorem handleGenerationComplete_discover_advances
    (nowId : Nat) (nowStr : String) (result : GenResult) (s : WorkspaceState)
    (ps sa : ArtifactInfo)
    (hps : result.problem_statement = some ps)
    (hsa : result.stakeholder_analysis = some sa)
    (hstage : result.stage ≠ some "develop")
    (htickets : result.tickets = none) :
    (WorkspaceView.handleGenerationComplete nowId nowStr result s).stageData "discover"
        = { status := "passed", itemCount := 2 } ∧
    ((WorkspaceView.handleGenerationComplete nowId nowStr result s).stageData "define").status
        = "active" ∧
    (WorkspaceView.handleGenerationComplete nowId nowStr result s).currentStage = "define" ∧
    (WorkspaceView.handleGenerationComplete nowId nowStr result s).artifacts "discover"
        = [{ artifact_id := ps.artifact_id, name := "Problem Statement",
             content := ps.content, created_at := ps.created_at,
             created_by := "AI Business Analyst", stage := "discover" },
           { artifact_id := sa.artifact_id, name := "Stakeholder Analysis",
             content := sa.content, created_at := sa.created_at,
             created_by := "AI Business Analyst", stage := "discover" }] := by
  have hcond : ¬(result.stage = some "develop" ∨ result.tickets.isSome) := by
    simp [hstage, htickets]
  refine ⟨?_, ?_, ?_, ?_⟩ <;>
    simp [WorkspaceView.handleGenerationComplete, if_neg hcond, hps, hsa]

/-- Witness for `handleGenerationComplete_discover_advances` on a fresh
workspace state and a concrete discover result. -/
theorem handleGenerationComplete_discover_advances_witness :
    (WorkspaceView.handleGenerationComplete 1 "now" exampleDiscoverResult
        exampleWorkspaceState).stageData "discover"
      = { status := "passed", itemCount := 2 } ∧
    (WorkspaceView.handleGenerationComplete 1 "now" exampleDiscoverResult
        exampleWorkspaceState).currentStage = "define" :=
  have h := handleGenerationComplete_discover_advances 1 "now" exampleDiscoverResult
    exampleWorkspaceState ⟨"a1", none, "PS content", "2025-01-01"⟩
    ⟨"a2", none, "SA content", "2025-01-01"⟩ rfl rfl (by decide) rfl
  ⟨h.1, h.2.2.1⟩

/-- Claim C4: with a GitHub configuration that is absent or has
`is_configured` false, `DevelopStagePanel` renders the connect prompt (in
particular not the ticket list through which `api.implementTicket` is
reachable), and viewing the develop stage opens the GitHub configuration
modal. -/
theorem develop_stage_requires_github
    (githubConfig : Option GitHubConfig) (tickets : List Ticket)
    (apiResult : Except String GitHubConfig) (showModal : Bool)
    (hcfg : ∀ c, githubConfig = some c → c.is_configured = false)
    (hapi : (WorkspaceView.checkGitHubConfig apiResult).is_configured = false) :
    DevelopStagePanel.render githubConfig tickets = .connectPrompt ∧
    (∀ ts, DevelopStagePanel.render githubConfig tickets ≠ .ticketList ts) ∧
    WorkspaceView.developViewEffect "develop" apiResult showModal = true := by
  have hc : githubIsConfigured githubConfig = false := by
    cases githubConfig with
    | none => rfl
    | some c => exact hcfg c rfl
  refine ⟨?_, ?_, ?_⟩
  · simp [DevelopStagePanel.render, hc]
  · intro ts
    simp [DevelopStagePanel.render, hc]
  · simp [WorkspaceView.developViewEffect, hapi]

/-- Witness for `develop_stage_requires_github`: an unconfigured record and
a failing config fetch. -/
theorem develop_stage_requires_github_witness :
    DevelopStagePanel.render (some ⟨false, none⟩) [⟨"T-1", "A ticket"⟩] = .connectPrompt ∧
    WorkspaceView.developViewEffect "develop" (.error "boom") false = true :=
  have h := develop_stage_requires_github (some ⟨false, none⟩) [⟨"T-1", "A ticket"⟩]
    (.error "boom") false (fun c hc => by cases hc; rfl) rfl
  ⟨h.1, h.2.2⟩

/-- Claim C5: the chat client methods target exactly the documented
endpoints — `sendChatMessage` POSTs to `/api/chat/send`, `getChatHistory`
GETs `/api/chat/{projectId}/{stage}/history` with a `limit` query parameter
whose default is 50, and `clearChatHistory` DELETEs
`/api/chat/{projectId}/{stage}/history`. -/
theorem chat_client_paths (projectId stage message : String) (limit : Nat) :
    (ApiService.sendChatMessage projectId stage message "user").method = "POST" ∧
    (ApiService.sendChatMessage projectId stage message "user").path = "/api/chat/send" ∧
    (ApiService.getChatHistory projectId stage limit).method = "GET" ∧
    (ApiService.getChatHistory projectId stage limit).path
      = "/api/chat/" ++ projectId ++ "/" ++ stage ++ "/history?limit=" ++ toString limit ∧
    ApiService.getChatHistoryDefaultLimit = 50 ∧
    (ApiService.clearChatHistory projectId stage).method = "DELETE" ∧
    (ApiService.clearChatHistory projectId stage).path
      = "/api/chat/" ++ projectId ++ "/" ++ stage ++ "/history" :=
  ⟨rfl, rfl, rfl, rfl, rfl, rfl, rfl⟩

/-- Claim C6: when `api.generateDiscover` rejects and the handler actually
ran (non-empty trimmed idea, no generation already in flight),
`handleGenerate` sets the error state to the rejection message — or to
`'Generation failed. Please try again.'` when that message is empty — does
not invoke `onGenerationComplete`, and ends with `isGenerating` false. -/
theorem handleGenerate_error_path (s : DiscoverPanelState) (msg : String)
    (hidea : jsTrim s.userIdea ≠ "") (hgen : s.isGenerating = false) :
    (DiscoverInputPanel.handleGenerate s (.error msg)).1.error
        = some (if msg = "" then "Generation failed. Please try again." else msg) ∧
    (DiscoverInputPanel.handleGenerate s (.error msg)).2 = none ∧
    (DiscoverInputPanel.handleGenerate s (.error msg)).1.isGenerating = false := by
  have hcond : ¬(jsTrim s.userIdea = "" ∨ s.isGenerating = true) := by
    simp [hidea, hgen]
  simp [DiscoverInputPanel.handleGenerate, if_neg hcond]

/-- Witness for `handleGenerate_error_path` at a concrete panel state and
rejection. -/
theorem handleGenerate_error_path_witness :
    (DiscoverInputPanel.handleGenerate ⟨"my idea", false, 0, none⟩ (.error "boom")).1.error
        = some "boom" ∧
    (DiscoverInputPanel.handleGenerate ⟨"my idea", false, 0, none⟩ (.error "boom")).2
        = none :=
  have h := handleGenerate_error_path ⟨"my idea", false, 0, none⟩ "boom" (by decide) rfl
  ⟨h.1.trans (by decide), h.2.1⟩

/-- Claim C7: `handleMoveToNextStage` marks the old current stage `passed`
and the next stage `active`, leaves every other stage's entry untouched,
and never changes any `itemCount`. -/
theorem handleMoveToNextStage_frame (nextStage : String) (s : WorkspaceState)
    (h : nextStage ≠ s.currentStage) :
    (WorkspaceView.handleMoveToNextStage nextStage s).stageData s.currentStage
        = { s.stageData s.currentStage with status := "passed" } ∧
    (WorkspaceView.handleMoveToNextStage nextStage s).stageData nextStage
        = { s.stageData nextStage with status := "active" } ∧
    (∀ st, st ≠ s.currentStage → st ≠ nextStage →
        (WorkspaceView.handleMoveToNextStage nextStage s).stageData st = s.stageData st) ∧
    (∀ st, ((WorkspaceView.handleMoveToNextStage nextStage s).stageData st).itemCount
        = (s.stageData st).itemCount) := by
  refine ⟨?_, ?_, ?_, ?_⟩
  · simp [WorkspaceView.handleMoveToNextStage, Ne.symm h]
  · simp [WorkspaceView.handleMoveToNextStage]
  · intro st h1 h2
    simp [WorkspaceView.handleMoveToNextStage, h1, h2]
  · intro st
    by_cases h1 : st = nextStage
    · simp [WorkspaceView.handleMoveToNextStage, h1]
    · by_cases h2 : st = s.currentStage
      · simp [WorkspaceView.handleMoveToNextStage, h1, h2, Ne.symm h]
      · simp [WorkspaceView.handleMoveToNextStage, h1, h2]

/-- Witness for `handleMoveToNextStage_frame`: moving the fresh example
state from `discover` to `define`. -/
theorem handleMoveToNextStage_frame_witness :
    (WorkspaceView.handleMoveToNextStage "define" exampleWorkspaceState).stageData "discover"
      = { status := "passed", itemCount := 0 } ∧
    (WorkspaceView.handleMoveToNextStage "define" exampleWorkspaceState).stageData "design"
      = { status := "pending", itemCount := 0 } :=
  have h := handleMoveToNextStage_frame "define" exampleWorkspaceState (by decide)
  ⟨h.1.trans rfl, (h.2.2.1 "design" (by decide) (by decide)).trans rfl⟩

/-- Claim C8: a response whose content type is not JSON is resolved as the
success value `{ message: <body text>, status: <HTTP status> }`, regardless
of whether the status indicates an error. -/
theorem apiRequest_nonjson_resolves (r : HttpResponse)
    (h : isJsonContentType r.contentType = false) :
    ApiService.request r = .ok (.textResult r.textBody r.status) := by
  simp [ApiService.request, h]

/-- Witness for `apiRequest_nonjson_resolves`: a plain-text 500 response is
returned as a value. -/
theorem apiRequest_nonjson_resolves_witness :
    ApiService.request (HttpResponse.mk false 500 (some "text/html") ⟨none, none⟩ "oops")
      = .ok (.textResult "oops" 500) :=
  apiRequest_nonjson_resolves
    (HttpResponse.mk false 500 (some "text/html") ⟨none, none⟩ "oops") (by decide)

/-- Claim C9: `GitHubConfigModal.handleSubmit` reaches
`api.saveGitHubConfig` exactly when the trimmed token is non-empty, the
trimmed repo is non-empty, and the repo contains a `/` splitting it into
exactly two parts; each violating input instead sets an inline error
message and performs no API request. -/
theorem handleSubmit_validation (token repo : String) :
    (jsTrim token ≠ "" → jsTrim repo ≠ "" → jsIncludes repo "/" = true →
        (jsSplit repo '/').length = 2 →
        GitHubConfigModal.handleSubmit token repo = .apiCall (jsTrim token) (jsTrim repo)) ∧
    (jsTrim token = "" →
        GitHubConfigModal.handleSubmit token repo
          = .inlineError "GitHub token is required") ∧
    (jsTrim token ≠ "" → jsTrim repo = "" →
        GitHubConfigModal.handleSubmit token repo
          = .inlineError "Repository is required") ∧
    (jsTrim token ≠ "" → jsTrim repo ≠ "" →
        (jsIncludes repo "/" = false ∨ (jsSplit repo '/').length ≠ 2) →
        GitHubConfigModal.handleSubmit token repo
          = .inlineError "Repository must be in format \"owner/repo\"") := by
  refine ⟨?_, ?_, ?_, ?_⟩
  · intro h1 h2 h3 h4
    simp [GitHubConfigModal.handleSubmit, h1, h2, h3, h4]
  · intro h1
    simp [GitHubConfigModal.handleSubmit, h1]
  · intro h1 h2
    simp [GitHubConfigModal.handleSubmit, h1, h2]
  · intro h1 h2 h3
    rcases h3 with h3 | h3 <;> simp [GitHubConfigModal.handleSubmit, h1, h2, h3]

/-- Witness for `handleSubmit_validation`: a well-formed `owner/repo` input
reaches the API call. -/
theorem handleSubmit_validation_witness :
    GitHubConfigModal.handleSubmit "tok" "owner/repo" = .apiCall "tok" "owner/repo" :=
  (handleSubmit_validation "tok" "owner/repo").1 (by decide) (by decide) (by decide)
    (by decide)

/-- Claim C10: `toggleSuite` removes the suite id when it is in the
expanded set and inserts it otherwise, and applying it twice returns the
original set. -/
theorem toggleSuite_toggle_involution (suiteId : String) (E : Finset String) :
    (suiteId ∈ E → TestStagePanel.toggleSuite suiteId E = E.erase suiteId) ∧
    (suiteId ∉ E → TestStagePanel.toggleSuite suiteId E = insert suiteId E) ∧
    TestStagePanel.toggleSuite suiteId (TestStagePanel.toggleSuite suiteId E) = E := by
  by_cases h : suiteId ∈ E
  · have h1 : TestStagePanel.toggleSuite suiteId E = E.erase suiteId := by
      simp [TestStagePanel.toggleSuite, h]
    refine ⟨fun _ => h1, fun hn => absurd h hn, ?_⟩
    rw [h1]
    simp [TestStagePanel.toggleSuite, Finset.insert_erase h]
  · have h1 : TestStagePanel.toggleSuite suiteId E = insert suiteId E := by
      simp [TestStagePanel.toggleSuite, h]
    refine ⟨fun hm => absurd hm h, fun _ => h1, ?_⟩
    rw [h1]
    simp [TestStagePanel.toggleSuite, Finset.erase_insert h]

/-- Witness for `toggleSuite_toggle_involution` on the concrete set
`{"a", "b"}` toggled at `"a"`. -/
theorem toggleSuite_toggle_involution_witness :
    TestStagePanel.toggleSuite "a" {"a", "b"} = ({"a", "b"} : Finset String).erase "a" ∧
    TestStagePanel.toggleSuite "a" (TestStagePanel.toggleSuite "a" {"a", "b"}) = {"a", "b"} :=
  ⟨(toggleSuite_toggle_involution "a" {"a", "b"}).1 (by decide),
   (toggleSuite_toggle_involution "a" {"a", "b"}).2.2⟩
